import Mathlib

/-!
Verification of the Fundacite request-tracking backend (`app.py`).

The Flask handlers are shallowly embedded: the ambient session is passed as
an explicit `Option String` department (Python's `session.get('departamento')`,
where both a missing key and an empty string are falsy), the SQLite store of
`Solicitud` rows is a `List Solicitud` in insertion (rowid) order, and each
handler is a pure function from session, store and JSON payload to an HTTP
status plus the resulting state.
-/

/-- A row of the `Solicitud` table (model class `Solicitud` in `app.py`).
`fecha_creacion` is the creation timestamp, modelled as a `Nat`;
`quien_atendio` and `que_hizo` are nullable columns. -/
structure Solicitud where
  id : Nat
  cedula : String
  nombre : String
  dependencia : String
  tipo : String
  descripcion : String
  departamento_destino : String
  fecha_creacion : Nat
  status : String
  quien_atendio : Option String
  que_hizo : Option String
deriving DecidableEq

/-- HTTP outcome of a handler, named after the statuses `app.py` returns. -/
inductive Status where
  | ok
  | unauthorized
  | forbidden
  | notFound
deriving DecidableEq

/-- Python truthiness of an optional string: `None` and `""` are falsy. -/
def pyTruthy : Option String → Bool
  | none => false
  | some s => s ≠ ""

/-- JSON body of a `PUT /api/solicitudes/<id>` request: each key may be
present or absent.  The handler reads the keys `descripcion`,
`departamento_destino`, `estado`, `quien_atendio`, `que_hizo`. -/
structure UpdatePayload where
  descripcion : Option String
  departamento_destino : Option String
  estado : Option String
  quien_atendio : Option String
  que_hizo : Option String
deriving DecidableEq

/-- `update_solicitud` (`app.py` lines 143-177): role-gated partial update of
one record.  `sess` is `session.get('departamento')`; a falsy department is
rejected with 401.  The sender branch (`d = dependencia`) copies only
`descripcion` and `departamento_destino` when present; the recipient branch
(`d = departamento_destino`) copies only `estado` (into `status`),
`quien_atendio` and `que_hizo`; any other department gets 403.  The result
pairs the HTTP status with the final state of the record. -/
def update_solicitud (sess : Option String) (s : Solicitud) (data : UpdatePayload) :
    Status × Solicitud :=
  if pyTruthy sess = false then
    (Status.unauthorized, s)
  else
    let d := sess.getD ""
    if d = s.dependencia then
      let s1 := match data.descripcion with
        | some v => { s with descripcion := v }
        | none => s
      let s2 := match data.departamento_destino with
        | some v => { s1 with departamento_destino := v }
        | none => s1
      (Status.ok, s2)
    else if d = s.departamento_destino then
      let s1 := match data.estado with
        | some v => { s with status := v }
        | none => s
      let s2 := match data.quien_atendio with
        | some v => { s1 with quien_atendio := some v }
        | none => s1
      let s3 := match data.que_hizo with
        | some v => { s2 with que_hizo := some v }
        | none => s2
      (Status.ok, s3)
    else
      (Status.forbidden, s)

/-- JSON body of a `POST /api/solicitudes` request.  The handler reads the
five required keys with `data['...']` (a missing key raises and is turned
into a 400); the `status` and `dependencia` keys can be supplied by the
client but are never read by the handler. -/
structure CreatePayload where
  cedula : Option String
  nombre : Option String
  tipo : Option String
  descripcion : Option String
  departamento_destino : Option String
  status : Option String
  dependencia : Option String
deriving DecidableEq

/-- Outcome of `create_solicitud`. -/
inductive CreateResult where
  | unauthorized
  | badRequest
  | created (s : Solicitud)
deriving DecidableEq

/-- `create_solicitud` (`app.py` lines 118-140): inserts a new row whose
`dependencia` is the session department and whose `status` is the literal
`'Recibida'`; `newId` is the primary key and `now` the `datetime.utcnow`
default assigned by the database. -/
def create_solicitud (sess : Option String) (data : CreatePayload)
    (newId : Nat) (now : Nat) : CreateResult :=
  if pyTruthy sess = false then
    CreateResult.unauthorized
  else
    match data.cedula, data.nombre, data.tipo, data.descripcion,
        data.departamento_destino with
    | some c, some n, some t, some de, some dd =>
        CreateResult.created
          { id := newId, cedula := c, nombre := n,
            dependencia := sess.getD "", tipo := t, descripcion := de,
            departamento_destino := dd, fecha_creacion := now,
            status := "Recibida", quien_atendio := none, que_hizo := none }
    | _, _, _, _, _ => CreateResult.badRequest

/-- One insertion step of the descending sort below: `r` is placed before
the first element whose timestamp is `≤` its own. -/
def insertDesc (r : Solicitud) : List Solicitud → List Solicitud
  | [] => [r]
  | x :: xs =>
      if x.fecha_creacion ≤ r.fecha_creacion then r :: x :: xs
      else x :: insertDesc r xs

/-- One admissible implementation of the SQL
`order_by(Solicitud.fecha_creacion.desc())` of the listing query, used to
give the embedded `get_solicitudes` a concrete output.  Only the
properties shared by every admissible implementation — the output is a
permutation of the input sorted descending, `IsQueryResult` below — come
from the code: SQLite leaves the relative order of rows with equal sort
keys unspecified, so this function's tie-breaking (insertion order) is a
choice of the model, not a behavior of the program. -/
def sortByFechaDesc : List Solicitud → List Solicitud
  | [] => []
  | x :: xs => insertDesc x (sortByFechaDesc xs)

/-- The row filter of the listing query: visible to `d` iff `d` is the
destination or the sender department. -/
def visibleTo (d : String) (s : Solicitud) : Bool :=
  s.departamento_destino = d || s.dependencia = d

/-- `get_solicitudes` (`app.py` lines 105-116): 401 on a falsy session
department, otherwise the rows visible to the department ordered by
`fecha_creacion` descending. -/
def get_solicitudes (sess : Option String) (store : List Solicitud) :
    Status × List Solicitud :=
  if pyTruthy sess = false then
    (Status.unauthorized, [])
  else
    (Status.ok, sortByFechaDesc (store.filter (visibleTo (sess.getD ""))))

/-- The full contract of the listing query
`filter(...).order_by(Solicitud.fecha_creacion.desc()).all()` (`app.py`
lines 111-114) over a store in rowid (insertion) order: an admissible
result is any permutation of the rows visible to `d` that is sorted by
`fecha_creacion` descending.  The code and SQLite guarantee nothing more;
in particular the relative order of equal timestamps is unspecified. -/
def IsQueryResult (d : String) (store out : List Solicitud) : Prop :=
  List.Perm (store.filter (visibleTo d)) out
  ∧ out.Pairwise (fun a b => b.fecha_creacion ≤ a.fecha_creacion)

/-- `delete_solicitud` (`app.py` lines 179-189): looks the row up by primary
key (`get_or_404`) and deletes it.  The handler performs no session or
permission check; `sess` is the ambient session it has access to but never
reads. -/
def delete_solicitud (sess : Option String) (store : List Solicitud)
    (id : Nat) : Status × List Solicitud :=
  if store.any (fun s => s.id = id) then
    (Status.ok, store.eraseP (fun s => s.id = id))
  else
    (Status.notFound, store)

/-- A primitive drawing operation on the reportlab canvas. -/
inductive Op where
  | setFont (font : String) (size : Nat)
  | drawString (x y : Int) (text : String)
  | drawPara (x y : Int) (text : String)
  | line (x1 y1 x2 y2 : Int)
deriving DecidableEq

/-- Canvas state inside `export_pdf`: the pages already closed by
`showPage`, the operations of the current page, and the `y_position`
cursor.  Page size is `letter` (612 x 792), so the cursor starts at
`792 - 50 = 742`. -/
structure RenderState where
  pages : List (List Op)
  cur : List Op
  y : Int
deriving DecidableEq

/-- The eight fixed detail lines of one record (`details` in `app.py`),
in source order; `fmtDate` models `strftime` on the creation timestamp and
a falsy `quien_atendio` prints `'N/A'`. -/
def detailLines (fmtDate : Nat → String) (s : Solicitud) : List String :=
  [ "Cédula: " ++ s.cedula,
    "Nombre: " ++ s.nombre,
    "Dpto. Emisor: " ++ s.dependencia,
    "Tipo: " ++ s.tipo,
    "Dpto. Destino: " ++ s.departamento_destino,
    "Fecha de Creación: " ++ fmtDate s.fecha_creacion,
    "Estado: " ++ s.status,
    "Quien Atendió: " ++
      (if pyTruthy s.quien_atendio then s.quien_atendio.getD "" else "N/A") ]

/-- The loop body of `export_pdf` after the page-break check: operations
drawn for one record starting at cursor `y`, together with the cursor after
the separator line.  `measure` models `Paragraph.wrapOn`, returning the
height of a wrapped text block. -/
def recordBody (measure : String → Int) (fmtDate : Nat → String)
    (s : Solicitud) (y : Int) : List Op × Int :=
  let ops := [Op.setFont "Helvetica-Bold" 12,
              Op.drawString 50 y ("Solicitud ID: " ++ toString s.id)]
  let y1 := y - 15
  let p := (detailLines fmtDate s).foldl
    (fun (p : List Op × Int) d => (p.1 ++ [Op.drawString 60 p.2 d], p.2 - 15))
    (ops, y1)
  let y2 := p.2 - 5
  let ops2 := p.1 ++ [Op.setFont "Helvetica-Bold" 10,
                      Op.drawString 60 y2 "Descripción:"]
  let y3 := y2 - 15
  let dh := measure s.descripcion
  let ops3 := ops2 ++ [Op.drawPara 60 (y3 - dh) s.descripcion]
  let y4 := y3 - (dh + 10)
  let q :=
    if pyTruthy s.que_hizo then
      let v := s.que_hizo.getD ""
      let rh := measure v
      (ops3 ++ [Op.setFont "Helvetica-Bold" 10,
                Op.drawString 60 y4 "Resolución:",
                Op.drawPara 60 (y4 - 15 - rh) v],
       y4 - 15 - (rh + 20))
    else
      (ops3 ++ [Op.setFont "Helvetica-Bold" 10,
                Op.drawString 60 y4 "Resolución: N/A"],
       y4 - 20)
  let y5 := q.2 - 10
  (q.1 ++ [Op.line 50 y5 562 y5], y5 - 20)

/-- One iteration of the `for solicitud in solicitudes` loop: if the cursor
is below 100 the current page is closed (`showPage`), the cursor resets to
the top and a continuation title is drawn, then the record body runs. -/
def renderRecord (measure : String → Int) (fmtDate : Nat → String)
    (st : RenderState) (s : Solicitud) : RenderState :=
  if st.y < 100 then
    let body := recordBody measure fmtDate s 712
    { pages := st.pages ++ [st.cur],
      cur := [Op.setFont "Helvetica-Bold" 18,
              Op.drawString 50 742 "Reporte de Solicitudes (Continuación)"]
        ++ body.1,
      y := body.2 }
  else
    let body := recordBody measure fmtDate s st.y
    { pages := st.pages, cur := st.cur ++ body.1, y := body.2 }

/-- The whole document body of `export_pdf`: title block, then either the
empty-report message or the record loop; `c.save()` closes the last page.
`now` models `datetime.now().strftime(...)`. -/
def exportBody (measure : String → Int) (fmtDate : Nat → String)
    (now : String) (sols : List Solicitud) : List (List Op) :=
  let st0 : RenderState :=
    { pages := [],
      cur := [Op.setFont "Helvetica-Bold" 18,
              Op.drawString 50 742 "Reporte de Solicitudes FUNDACITE",
              Op.setFont "Helvetica" 10,
              Op.drawString 50 712 ("Fecha de generación: " ++ now)],
      y := 692 }
  let st :=
    if sols.isEmpty then
      { st0 with cur := st0.cur ++
          [Op.drawString 50 692 "No hay solicitudes para mostrar en este reporte."] }
    else
      sols.foldl (renderRecord measure fmtDate) st0
  st.pages ++ [st.cur]

/-- Outcome of `export_pdf`: 400, or the rendered page list. -/
inductive ExportResult where
  | badRequest
  | pdf (doc : List (List Op))
deriving DecidableEq

/-- `export_pdf` (`app.py` lines 192-303): selects all rows when
`export_all` is truthy, else the rows whose id is in `ids` when that list is
non-empty, else 400; then renders the report.  `sess` is the ambient session
the handler has access to but never reads. -/
def export_pdf (measure : String → Int) (fmtDate : Nat → String)
    (now : String) (sess : Option String) (store : List Solicitud)
    (exportAll : Bool) (ids : List Nat) : ExportResult :=
  if exportAll then
    ExportResult.pdf (exportBody measure fmtDate now store)
  else if ids.isEmpty then
    ExportResult.badRequest
  else
    ExportResult.pdf (exportBody measure fmtDate now
      (store.filter (fun s => ids.contains s.id)))

theorem mem_insertDesc (r y : Solicitud) (l : List Solicitud) :
    y ∈ insertDesc r l ↔ y = r ∨ y ∈ l := by
  induction l with
  | nil => simp [insertDesc]
  | cons x xs ih =>
    by_cases h : x.fecha_creacion ≤ r.fecha_creacion
    · simp [insertDesc, h]
    · simp [insertDesc, h, ih]
      tauto

theorem pairwise_insertDesc (r : Solicitud) (l : List Solicitud)
    (hl : l.Pairwise (fun a b => b.fecha_creacion ≤ a.fecha_creacion)) :
    (insertDesc r l).Pairwise (fun a b => b.fecha_creacion ≤ a.fecha_creacion) := by
  induction l with
  | nil => simp [insertDesc]
  | cons x xs ih =>
    rcases List.pairwise_cons.mp hl with ⟨hx, hxs⟩
    by_cases h : x.fecha_creacion ≤ r.fecha_creacion
    · simp only [insertDesc, if_pos h]
      refine List.pairwise_cons.mpr ⟨?_, hl⟩
      intro b hb
      rcases List.mem_cons.mp hb with hb | hb
      · exact hb ▸ h
      · exact le_trans (hx b hb) h
    · simp only [insertDesc, if_neg h]
      refine List.pairwise_cons.mpr ⟨?_, ih hxs⟩
      intro b hb
      rcases (mem_insertDesc r b xs).mp hb with hb | hb
      · exact hb ▸ le_of_lt (lt_of_not_le h)
      · exact hx b hb

theorem perm_insertDesc (r : Solicitud) (l : List Solicitud) :
    List.Perm (insertDesc r l) (r :: l) := by
  induction l with
  | nil => exact List.Perm.refl _
  | cons x xs ih =>
    by_cases h : x.fecha_creacion ≤ r.fecha_creacion
    · simp only [insertDesc, if_pos h]
      exact List.Perm.refl _
    · simp only [insertDesc, if_neg h]
      exact (ih.cons x).trans (List.Perm.swap r x xs)

theorem perm_sortByFechaDesc (l : List Solicitud) :
    List.Perm (sortByFechaDesc l) l := by
  induction l with
  | nil => exact List.Perm.refl _
  | cons x xs ih => exact (perm_insertDesc x _).trans (ih.cons x)

theorem mem_sortByFechaDesc (y : Solicitud) (l : List Solicitud) :
    y ∈ sortByFechaDesc l ↔ y ∈ l := by
  induction l with
  | nil => simp [sortByFechaDesc]
  | cons x xs ih => simp [sortByFechaDesc, mem_insertDesc, ih]

theorem pairwise_sortByFechaDesc (l : List Solicitud) :
    (sortByFechaDesc l).Pairwise (fun a b => b.fecha_creacion ≤ a.fecha_creacion) := by
  induction l with
  | nil => simp [sortByFechaDesc]
  | cons x xs ih => exact pairwise_insertDesc x _ ih

/-- A concrete stored record used in witnesses and counterexamples:
sent by DTISC to DIAC. -/
def r0 : Solicitud :=
  { id := 1, cedula := "V-123", nombre := "Ana", dependencia := "DTISC",
    tipo := "Soporte", descripcion := "equipo dañado",
    departamento_destino := "DIAC", fecha_creacion := 5,
    status := "Recibida", quien_atendio := none, que_hizo := none }

/-- An update payload supplying every key, used to exercise the
silently-ignored fields. -/
def payAll : UpdatePayload :=
  { descripcion := some "nueva descripción",
    departamento_destino := some "DGA", estado := some "Atendida",
    quien_atendio := some "Luis", que_hizo := some "se reparó" }

/-- C1: when the acting department equals the record's `dependencia`, the
update leaves `status`, `quien_atendio` and `que_hizo` (and every other
field except `descripcion` and `departamento_destino`) unchanged even if
the payload supplies them, and `descripcion` / `departamento_destino`
change only when present in the payload. -/
theorem update_sender_frame (d : String) (s : Solicitud) (data : UpdatePayload)
    (hd : d = s.dependencia) :
    (update_solicitud (some d) s data).2.status = s.status
    ∧ (update_solicitud (some d) s data).2.quien_atendio = s.quien_atendio
    ∧ (update_solicitud (some d) s data).2.que_hizo = s.que_hizo
    ∧ (update_solicitud (some d) s data).2.id = s.id
    ∧ (update_solicitud (some d) s data).2.cedula = s.cedula
    ∧ (update_solicitud (some d) s data).2.nombre = s.nombre
    ∧ (update_solicitud (some d) s data).2.tipo = s.tipo
    ∧ (update_solicitud (some d) s data).2.fecha_creacion = s.fecha_creacion
    ∧ (data.descripcion = none →
        (update_solicitud (some d) s data).2.descripcion = s.descripcion)
    ∧ (data.departamento_destino = none →
        (update_solicitud (some d) s data).2.departamento_destino
          = s.departamento_destino) := by
  by_cases hd0 : d = ""
  · subst hd0
    simp [update_solicitud, pyTruthy]
  · subst hd
    cases hde : data.descripcion <;> cases hdd : data.departamento_destino <;>
      simp [update_solicitud, pyTruthy, hd0, hde, hdd]

theorem update_sender_frame_witness :
    ("DTISC" = r0.dependencia)
    ∧ (update_solicitud (some "DTISC") r0 payAll).2.status = r0.status :=
  ⟨rfl, (update_sender_frame "DTISC" r0 payAll rfl).1⟩

/-- C2: when the acting department equals the record's
`departamento_destino` but not its `dependencia`, the update leaves
`descripcion` and `departamento_destino` (and id, cedula, nombre, tipo,
fecha_creacion) unchanged even if the payload supplies them, and `status`,
`quien_atendio`, `que_hizo` change only when the corresponding payload key
is present. -/
theorem update_recipient_frame (d : String) (s : Solicitud) (data : UpdatePayload)
    (hd : d = s.departamento_destino) (hne : d ≠ s.dependencia) :
    (update_solicitud (some d) s data).2.descripcion = s.descripcion
    ∧ (update_solicitud (some d) s data).2.departamento_destino
        = s.departamento_destino
    ∧ (update_solicitud (some d) s data).2.id = s.id
    ∧ (update_solicitud (some d) s data).2.cedula = s.cedula
    ∧ (update_solicitud (some d) s data).2.nombre = s.nombre
    ∧ (update_solicitud (some d) s data).2.tipo = s.tipo
    ∧ (update_solicitud (some d) s data).2.fecha_creacion = s.fecha_creacion
    ∧ (data.estado = none →
        (update_solicitud (some d) s data).2.status = s.status)
    ∧ (data.quien_atendio = none →
        (update_solicitud (some d) s data).2.quien_atendio = s.quien_atendio)
    ∧ (data.que_hizo = none →
        (update_solicitud (some d) s data).2.que_hizo = s.que_hizo) := by
  by_cases hd0 : d = ""
  · subst hd0
    simp [update_solicitud, pyTruthy]
  · subst hd
    cases hes : data.estado <;> cases hqa : data.quien_atendio <;>
      cases hqh : data.que_hizo <;>
      simp [update_solicitud, pyTruthy, hd0, hne, hes, hqa, hqh]

theorem update_recipient_frame_witness :
    ("DIAC" = r0.departamento_destino ∧ "DIAC" ≠ r0.dependencia)
    ∧ (update_solicitud (some "DIAC") r0 payAll).2.descripcion
        = r0.descripcion :=
  ⟨⟨rfl, by decide⟩,
   (update_recipient_frame "DIAC" r0 payAll rfl (by decide)).1⟩

/-- C3: a department that is neither the sender (`dependencia`) nor the
recipient (`departamento_destino`) gets `Forbidden` and the record is
returned entirely unchanged.  `d ≠ ""` says the session did resolve to an
acting department (a falsy department is rejected as Unauthorized before
the role dispatch). -/
theorem update_outsider_forbidden (d : String) (s : Solicitud)
    (data : UpdatePayload) (h0 : d ≠ "")
    (h1 : d ≠ s.dependencia) (h2 : d ≠ s.departamento_destino) :
    update_solicitud (some d) s data = (Status.forbidden, s) := by
  simp [update_solicitud, pyTruthy, h0, h1, h2]

theorem update_outsider_forbidden_witness :
    ("DGA" ≠ "" ∧ "DGA" ≠ r0.dependencia ∧ "DGA" ≠ r0.departamento_destino)
    ∧ update_solicitud (some "DGA") r0 payAll = (Status.forbidden, r0) :=
  ⟨⟨by decide, by decide, by decide⟩,
   update_outsider_forbidden "DGA" r0 payAll (by decide) (by decide) (by decide)⟩

/-- A creation payload supplying every key, including the `status` and
`dependencia` keys the handler never reads. -/
def pay0 : CreatePayload :=
  { cedula := some "V-123", nombre := some "Ana", tipo := some "Soporte",
    descripcion := some "equipo dañado", departamento_destino := some "DIAC",
    status := some "Received", dependencia := some "DCCIP" }

/-- C4, counterexample: a creation by DTISC (payload even supplies
`status = "Received"`) yields a record whose status is the literal
`"Recibida"`, which is not the string `"Received"` the claim states. -/
theorem create_status_counterexample :
    create_solicitud (some "DTISC") pay0 1 0
      = CreateResult.created
          { id := 1, cedula := "V-123", nombre := "Ana",
            dependencia := "DTISC", tipo := "Soporte",
            descripcion := "equipo dañado", departamento_destino := "DIAC",
            fecha_creacion := 0, status := "Recibida",
            quien_atendio := none, que_hizo := none }
    ∧ "Recibida" ≠ "Received" := by
  constructor
  · rfl
  · decide

/-- C4, amended: every authenticated creation yields a record with
`status = "Recibida"` and `dependencia` equal to the session department,
whatever `status` or `dependencia` the payload supplies (`stp`, `depp` are
arbitrary). -/
theorem create_forces_status_and_sender (d c n t de dd : String)
    (stp depp : Option String) (newId now : Nat) (h0 : d ≠ "") :
    create_solicitud (some d)
        { cedula := some c, nombre := some n, tipo := some t,
          descripcion := some de, departamento_destino := some dd,
          status := stp, dependencia := depp } newId now
      = CreateResult.created
          { id := newId, cedula := c, nombre := n, dependencia := d,
            tipo := t, descripcion := de, departamento_destino := dd,
            fecha_creacion := now, status := "Recibida",
            quien_atendio := none, que_hizo := none } := by
  simp [create_solicitud, pyTruthy, h0]

theorem create_forces_status_and_sender_witness :
    ("DTISC" ≠ "")
    ∧ create_solicitud (some "DTISC")
        { cedula := some "V-123", nombre := some "Ana", tipo := some "Soporte",
          descripcion := some "equipo dañado",
          departamento_destino := some "DIAC",
          status := some "Received", dependencia := some "DCCIP" } 1 0
      = CreateResult.created
          { id := 1, cedula := "V-123", nombre := "Ana",
            dependencia := "DTISC", tipo := "Soporte",
            descripcion := "equipo dañado", departamento_destino := "DIAC",
            fecha_creacion := 0, status := "Recibida",
            quien_atendio := none, que_hizo := none } :=
  ⟨by decide,
   create_forces_status_and_sender "DTISC" "V-123" "Ana" "Soporte"
     "equipo dañado" "DIAC" (some "Received") (some "DCCIP") 1 0 (by decide)⟩

/-- C5: a stored record appears in the listing returned to department `d`
iff `d` is its sender (`dependencia`) or its recipient
(`departamento_destino`). -/
theorem listing_visibility (d : String) (store : List Solicitud)
    (r : Solicitud) (h0 : d ≠ "") (hr : r ∈ store) :
    r ∈ (get_solicitudes (some d) store).2
      ↔ (d = r.dependencia ∨ d = r.departamento_destino) := by
  simp only [get_solicitudes, pyTruthy]
  rw [if_neg (by simp [h0])]
  simp only [Option.getD_some]
  rw [mem_sortByFechaDesc, List.mem_filter]
  simp [visibleTo, hr]
  constructor
  · rintro (h | h)
    · exact Or.inr h.symm
    · exact Or.inl h.symm
  · rintro (h | h)
    · exact Or.inr h.symm
    · exact Or.inl h.symm

theorem listing_visibility_witness :
    ("DIAC" ≠ "" ∧ r0 ∈ [r0])
    ∧ (r0 ∈ (get_solicitudes (some "DIAC") [r0]).2
        ↔ ("DIAC" = r0.dependencia ∨ "DIAC" = r0.departamento_destino)) :=
  ⟨⟨by decide, List.mem_singleton.mpr rfl⟩,
   listing_visibility "DIAC" [r0] r0 (by decide) (List.mem_singleton.mpr rfl)⟩

/-- C6, counterexample: with no session at all, deleting the stored record
`r0` succeeds (`Status.ok`) and removes it — the operation is not rejected
as Unauthorized and the store is modified. -/
theorem session_gating_counterexample :
    delete_solicitud none [r0] 1 = (Status.ok, [])
    ∧ Status.ok ≠ Status.unauthorized := by
  constructor
  · rfl
  · decide

/-- C6, amended: the list, create and update operations reject a missing or
empty session department as Unauthorized without reading or modifying any
record, but the delete operation performs no session check at all — its
result is independent of the session. -/
theorem session_gating_amended :
    (∀ store : List Solicitud,
      get_solicitudes none store = (Status.unauthorized, []))
    ∧ (∀ store : List Solicitud,
      get_solicitudes (some "") store = (Status.unauthorized, []))
    ∧ (∀ (p : CreatePayload) (i n : Nat),
      create_solicitud none p i n = CreateResult.unauthorized)
    ∧ (∀ (p : CreatePayload) (i n : Nat),
      create_solicitud (some "") p i n = CreateResult.unauthorized)
    ∧ (∀ (s : Solicitud) (data : UpdatePayload),
      update_solicitud none s data = (Status.unauthorized, s))
    ∧ (∀ (s : Solicitud) (data : UpdatePayload),
      update_solicitud (some "") s data = (Status.unauthorized, s))
    ∧ (∀ (sess : Option String) (store : List Solicitud) (i : Nat),
      delete_solicitud sess store i = delete_solicitud none store i) :=
  ⟨fun _ => rfl, fun _ => rfl, fun _ _ _ => rfl, fun _ _ _ => rfl,
   fun _ _ => rfl, fun _ _ => rfl, fun _ _ _ => rfl⟩

/-- A record equal-timestamped with `r0` and inserted after it. -/
def rTie : Solicitud := { r0 with id := 2, nombre := "Beto" }

/-- C7, counterexample: the query contract `IsQueryResult` — all the code
and SQLite guarantee for `ORDER BY fecha_creacion DESC` — admits, for the
store `[r0, rTie]` of two records with equal `fecha_creacion`, the result
`[rTie, r0]`, which reverses their insertion order.  So the claimed
tie-breaking by insertion order (stability) is not a guarantee of the
program. -/
theorem listing_stability_counterexample :
    IsQueryResult "DIAC" [r0, rTie] [rTie, r0]
    ∧ r0.fecha_creacion = rTie.fecha_creacion
    ∧ [rTie, r0] ≠ [r0, rTie] := by
  refine ⟨⟨?_, by decide⟩, by decide, by decide⟩
  have hf : ([r0, rTie].filter (visibleTo "DIAC")) = [r0, rTie] := by decide
  rw [hf]
  exact List.Perm.swap rTie r0 []

/-- C7, amended: the listing returns exactly the records visible to the
department (a permutation of them), sorted by `fecha_creacion` descending;
the relative order of records with equal `fecha_creacion` is left
unspecified by the code.  Proved as: the embedded listing's output
satisfies the query contract `IsQueryResult`. -/
theorem listing_sorted_amended (d : String) (store : List Solicitud)
    (h0 : d ≠ "") :
    IsQueryResult d store ((get_solicitudes (some d) store).2) := by
  simp only [get_solicitudes, pyTruthy]
  rw [if_neg (by simp [h0])]
  simp only [Option.getD_some]
  exact ⟨(perm_sortByFechaDesc _).symm, pairwise_sortByFechaDesc _⟩

theorem listing_sorted_amended_witness :
    ("DIAC" ≠ "")
    ∧ IsQueryResult "DIAC" [r0] ((get_solicitudes (some "DIAC") [r0]).2) :=
  ⟨by decide, listing_sorted_amended "DIAC" [r0] (by decide)⟩

/-- A concrete paragraph-height measure for witnesses. -/
def m0 : String → Int := fun _ => 30

/-- A concrete timestamp formatter for witnesses. -/
def f0 : Nat → String := fun _ => "2024-01-01 00:00:00"

/-- C8: a selection that matches nothing (an id list hitting no stored
record, or exporting all of an empty store) yields a single-page document
whose last drawn string is the no-records message. -/
theorem export_empty_report (measure : String → Int) (fmtDate : Nat → String)
    (now : String) (sess : Option String) (store : List Solicitud)
    (ids : List Nat) (hids : ids ≠ [])
    (hsel : store.filter (fun s => ids.contains s.id) = []) :
    export_pdf measure fmtDate now sess store false ids
      = ExportResult.pdf
          [[Op.setFont "Helvetica-Bold" 18,
            Op.drawString 50 742 "Reporte de Solicitudes FUNDACITE",
            Op.setFont "Helvetica" 10,
            Op.drawString 50 712 ("Fecha de generación: " ++ now),
            Op.drawString 50 692
              "No hay solicitudes para mostrar en este reporte."]]
    ∧ export_pdf measure fmtDate now sess [] true ids
      = ExportResult.pdf
          [[Op.setFont "Helvetica-Bold" 18,
            Op.drawString 50 742 "Reporte de Solicitudes FUNDACITE",
            Op.setFont "Helvetica" 10,
            Op.drawString 50 712 ("Fecha de generación: " ++ now),
            Op.drawString 50 692
              "No hay solicitudes para mostrar en este reporte."]] := by
  have hne : ids.isEmpty = false := by
    cases ids with
    | nil => exact absurd rfl hids
    | cons a l => rfl
  have e1 : export_pdf measure fmtDate now sess store false ids
      = ExportResult.pdf (exportBody measure fmtDate now
          (store.filter (fun s => ids.contains s.id))) := by
    simp [export_pdf, hne]
  constructor
  · rw [e1, hsel]
    simp [exportBody]
  · simp [export_pdf, exportBody]

theorem export_empty_report_witness :
    (([99] : List Nat) ≠ []
      ∧ [r0].filter (fun s => [99].contains s.id) = [])
    ∧ export_pdf m0 f0 "hoy" none [r0] false [99]
      = ExportResult.pdf
          [[Op.setFont "Helvetica-Bold" 18,
            Op.drawString 50 742 "Reporte de Solicitudes FUNDACITE",
            Op.setFont "Helvetica" 10,
            Op.drawString 50 712 ("Fecha de generación: " ++ "hoy"),
            Op.drawString 50 692
              "No hay solicitudes para mostrar en este reporte."]] :=
  ⟨⟨by decide, by decide⟩,
   (export_empty_report m0 f0 "hoy" none [r0] [99] (by decide) (by decide)).1⟩

theorem recordBody_head (measure : String → Int) (fmtDate : Nat → String)
    (s : Solicitud) (y : Int) :
    ∃ rest, (recordBody measure fmtDate s y).1
      = Op.setFont "Helvetica-Bold" 12
        :: Op.drawString 50 y ("Solicitud ID: " ++ toString s.id) :: rest := by
  by_cases hq : pyTruthy s.que_hizo = true <;>
    simp [recordBody, detailLines, hq]

/-- C9: pagination of the record loop is greedy and forward-only.  For any
canvas state, if the cursor is below the 100-unit threshold the current
page is closed unchanged, the cursor resets to the top (continuation title
at 742) and the record's header block starts at 712; exactly otherwise no
page break happens, the already-closed pages are untouched, the current
page only grows, and the header block starts at the current cursor — which
the guard guarantees is at least 100.  So no record's block ever starts
inside the reserved bottom margin and no already-rendered page is ever
revisited. -/
theorem export_pagination_greedy (measure : String → Int)
    (fmtDate : Nat → String) (st : RenderState) (s : Solicitud) :
    (st.y < 100 →
      (renderRecord measure fmtDate st s).pages = st.pages ++ [st.cur]
      ∧ ∃ rest, (renderRecord measure fmtDate st s).cur
          = Op.setFont "Helvetica-Bold" 18
            :: Op.drawString 50 742 "Reporte de Solicitudes (Continuación)"
            :: Op.setFont "Helvetica-Bold" 12
            :: Op.drawString 50 712 ("Solicitud ID: " ++ toString s.id)
            :: rest)
    ∧ (100 ≤ st.y →
      (renderRecord measure fmtDate st s).pages = st.pages
      ∧ ∃ rest, (renderRecord measure fmtDate st s).cur
          = st.cur
            ++ Op.setFont "Helvetica-Bold" 12
            :: Op.drawString 50 st.y ("Solicitud ID: " ++ toString s.id)
            :: rest) := by
  constructor
  · intro h
    obtain ⟨rest, hrest⟩ := recordBody_head measure fmtDate s 712
    refine ⟨by simp [renderRecord, h], ⟨rest, ?_⟩⟩
    simp [renderRecord, h, hrest]
  · intro h
    have h' : ¬ st.y < 100 := not_lt.mpr h
    obtain ⟨rest, hrest⟩ := recordBody_head measure fmtDate s st.y
    refine ⟨by simp [renderRecord, h'], ⟨rest, ?_⟩⟩
    simp [renderRecord, h', hrest]

/-- A canvas state whose cursor sits below the page-break threshold. -/
def stA : RenderState :=
  { pages := [], cur := [Op.setFont "Helvetica" 10], y := 50 }

theorem export_pagination_greedy_witness :
    ((50 : Int) < 100)
    ∧ (renderRecord m0 f0 stA r0).pages = stA.pages ++ [stA.cur] :=
  ⟨by decide, ((export_pagination_greedy m0 f0 stA r0).1 (by decide)).1⟩

/-- C10: `export_pdf` never consults the session — its result is the same
for any two session departments (in particular authenticated vs. not) —
and an unauthenticated caller asking `export_all` gets the report of the
entire store. -/
theorem export_session_independent :
    (∀ (measure : String → Int) (fmtDate : Nat → String) (now : String)
        (sess1 sess2 : Option String) (store : List Solicitud)
        (exportAll : Bool) (ids : List Nat),
      export_pdf measure fmtDate now sess1 store exportAll ids
        = export_pdf measure fmtDate now sess2 store exportAll ids)
    ∧ (∀ (measure : String → Int) (fmtDate : Nat → String) (now : String)
        (store : List Solicitud) (ids : List Nat),
      export_pdf measure fmtDate now none store true ids
        = ExportResult.pdf (exportBody measure fmtDate now store)) :=
  ⟨fun _ _ _ _ _ _ _ _ => rfl, fun _ _ _ _ _ => rfl⟩
